import Mathlib

/-!
Shallow embedding of the jsplumb-react-wrapper reconciliation, selection and
pan/zoom logic.  Pure functions are translated directly; the stateful
connection-reconciliation pass is modelled as explicit state passing over a
store of connection objects.  JavaScript numbers are modelled as rationals.
-/

namespace JsPlumbWrapper

/-- `DEFAULT_PORT_ID` constant (`src/unnamed/part_002`, line 42). -/
def DEFAULT_PORT_ID : String := "default"

/-- `getEndpointUuid` (`src/unnamed/part_002`, line 50):
`(nodeId, portId) => nodeId + ":" + (portId ?? DEFAULT_PORT_ID)`. -/
def getEndpointUuid (nodeId : String) (portId : Option String) : String :=
  nodeId ++ ":" ++ (portId.getD DEFAULT_PORT_ID)

/-- `uniqueList` (`src/unnamed/part_002`, line 57):
`Array.from(new Set(values))` keeps the first occurrence of each value in
order and drops later duplicates.  Modelled with an accumulator of already
seen values. -/
def uniqueListAux (seen : List String) : List String → List String
  | [] => []
  | x :: xs =>
    if x ∈ seen then uniqueListAux seen xs
    else x :: uniqueListAux (x :: seen) xs

/-- `uniqueList` entry point. -/
def uniqueList (values : List String) : List String :=
  uniqueListAux [] values

/-- `CanvasSelection` (`src/src/types.ts`): two identity lists. -/
structure CanvasSelection where
  nodes : List String
  connections : List String
  deriving Repr, DecidableEq

/-- `emitSelection` (`src/src/hooks/useSelectionManager.ts`, lines 35-48).
`selectedNodesProp` / `selectedConnectionsProp` are the controlled props
(`none` = uncontrolled).  Returns the new internal selection state and the
selection emitted through `onSelectionChange`. -/
def emitSelection (selectedNodesProp selectedConnectionsProp : Option (List String))
    (previous : CanvasSelection) (nextNodes nextConnections : List String) :
    CanvasSelection × CanvasSelection :=
  let internal : CanvasSelection :=
    { nodes := match selectedNodesProp with
        | none => nextNodes
        | some _ => previous.nodes
      connections := match selectedConnectionsProp with
        | none => nextConnections
        | some _ => previous.connections }
  let emitted : CanvasSelection :=
    { nodes := selectedNodesProp.getD nextNodes
      connections := selectedConnectionsProp.getD nextConnections }
  (internal, emitted)

/-- Membership toggle on a JS `Set` built from a list: `new Set(values)`
dedups keeping first occurrences; `delete` removes, `add` appends when
absent; `Array.from` reads the insertion order back. -/
def setToggle (values : List String) (x : String) : List String :=
  let s := uniqueList values
  if x ∈ s then s.filter (fun v => v ≠ x) else s ++ [x]

/-- `updateNodeSelection` (`src/src/hooks/useSelectionManager.ts`, lines
52-72) without the final `emitSelection` call: computes the pair
`(uniqueList nextNodes, uniqueList nextConnections)` handed to
`emitSelection`.  `multi` is `allowMultiSelect && (meta || ctrl || shift)`. -/
def updateNodeSelection (allowMulti modifier : Bool) (current : CanvasSelection)
    (nodeId : String) : List String × List String :=
  let multi := allowMulti && modifier
  let nextNodes :=
    if multi then setToggle current.nodes nodeId else [nodeId]
  let nextConnections := if multi then current.connections else []
  (uniqueList nextNodes, uniqueList nextConnections)

/-- Connection `EVENT_CLICK` handler body (`src/src/hooks/useJsPlumbCanvas.ts`,
lines 80-101) without the final emit: computes the pair handed to
`emitSelection`. -/
def connectionClickSelection (allowMulti modifier : Bool) (current : CanvasSelection)
    (connId : String) : List String × List String :=
  let multi := allowMulti && modifier
  let nextConnections :=
    if multi then setToggle current.connections connId else [connId]
  let nextNodes := if multi then current.nodes else []
  (uniqueList nextNodes, uniqueList nextConnections)

/-- `clampZoom` (`src/unnamed/part_000`, line 42):
`(value) => Math.min(maxZoom, Math.max(minZoom, value))`.  Numbers are
modelled as rationals. -/
def clampZoom (minZoom maxZoom value : ℚ) : ℚ :=
  min maxZoom (max minZoom value)

/-- `setZoomInternal` (`src/unnamed/part_000`, lines 44-62) returns the
clamped zoom (the state update and engine push carry the same value). -/
def setZoomInternal (minZoom maxZoom value : ℚ) : ℚ :=
  clampZoom minZoom maxZoom value

/-- `zoomIn` (`src/unnamed/part_000`, lines 140-142):
`setZoomInternal(zoomRef.current + zoomStep)`. -/
def zoomIn (minZoom maxZoom zoomStep z : ℚ) : ℚ :=
  setZoomInternal minZoom maxZoom (z + zoomStep)

/-- `zoomOut` (`src/unnamed/part_000`, lines 144-146):
`setZoomInternal(zoomRef.current - zoomStep)`. -/
def zoomOut (minZoom maxZoom zoomStep z : ℚ) : ℚ :=
  setZoomInternal minZoom maxZoom (z - zoomStep)

/-- `n` successive `zoomIn()` calls starting from zoom `z`. -/
def iterateZoomIn (minZoom maxZoom zoomStep : ℚ) : Nat → ℚ → ℚ
  | 0, z => z
  | n + 1, z => iterateZoomIn minZoom maxZoom zoomStep n (zoomIn minZoom maxZoom zoomStep z)

/-- `handleWheel` core (`src/unnamed/part_000`, lines 126-135), after the
modifier guard has passed.  `pointer` is the viewport-pixel position
(`clientX/Y` minus the canvas rect origin), `pan` the current pan,
`z` the current zoom, `deltaYPos` the sign test `event.deltaY > 0`.
Returns `(nextZoom, nextPanX, nextPanY)`. -/
def handleWheel (minZoom maxZoom zoomStep : ℚ) (pointerX pointerY panX panY z : ℚ)
    (deltaYPos : Bool) : ℚ × ℚ × ℚ :=
  let graphX := (pointerX - panX) / z
  let graphY := (pointerY - panY) / z
  let direction : ℚ := if deltaYPos then -1 else 1
  let nextZoom := setZoomInternal minZoom maxZoom (z + direction * zoomStep)
  let nextPanX := pointerX - graphX * nextZoom
  let nextPanY := pointerY - graphY * nextZoom
  (nextZoom, nextPanX, nextPanY)

/-- An endpoint reference of a connection (`src/src/types.ts`):
`{ nodeId: string; portId?: string }`. -/
structure ConnEndpointRef where
  nodeId : String
  portId : Option String
  deriving Repr, DecidableEq

/-- `DraftConnection` (`src/src/types.ts`). -/
structure DraftConnection where
  source : ConnEndpointRef
  target : ConnEndpointRef
  deriving Repr, DecidableEq

/-- JS truthiness for a nullable string: `null`, `undefined` and `""` are
falsy. -/
def truthyString : Option String → Bool
  | none => false
  | some s => !(s = "")

/-- `toDraftConnection` (`src/unnamed/part_002`, lines 59-75).  The inputs
are the endpoints' `portId`s and the `data-node-id` attributes of the
closest `.jr-node` ancestors of the endpoint elements (`none` when there is
no such ancestor or no attribute).  Returns `none` where the code returns
`null`. -/
def toDraftConnection (sourcePortId targetPortId : Option String)
    (sourceNodeId targetNodeId : Option String) : Option DraftConnection :=
  if truthyString sourceNodeId && truthyString targetNodeId then
    some
      { source :=
          { nodeId := sourceNodeId.getD ""
            portId := if sourcePortId = some DEFAULT_PORT_ID then none else sourcePortId }
        target :=
          { nodeId := targetNodeId.getD ""
            portId := if targetPortId = some DEFAULT_PORT_ID then none else targetPortId } }
  else
    none

/-- Outcome of the `EVENT_CONNECTION` handler (`src/src/hooks/useJsPlumbCanvas.ts`,
lines 204-216).  `deleted fireEvent` records `jp.deleteConnection(info.connection,
\x7b fireEvent \x7d)`; `kept` leaves the new connection in place; `ignored`
means the handler returned before invoking the callback. -/
inductive ConnectionEventOutcome where
  | ignored
  | kept (draft : DraftConnection)
  | deleted (draft : DraftConnection) (fireEvent : Bool)
  deriving Repr, DecidableEq

/-- The `EVENT_CONNECTION` handler.  `syncing` is `syncingRef.current`,
`hasOriginalEvent` the presence of `originalEvent`, and `onLinkCreate` the
user callback returning `some b` for a boolean and `none` for
`undefined`/no handler. -/
def onConnectionEvent (syncing hasOriginalEvent : Bool)
    (sourcePortId targetPortId sourceNodeId targetNodeId : Option String)
    (onLinkCreate : DraftConnection → Option Bool) : ConnectionEventOutcome :=
  if syncing || !hasOriginalEvent then .ignored
  else
    match toDraftConnection sourcePortId targetPortId sourceNodeId targetNodeId with
    | none => .ignored
    | some draft =>
      if onLinkCreate draft = some false then .deleted draft false
      else .kept draft

/-- The `EVENT_CONNECTION_DETACHED` handler (`src/src/hooks/useJsPlumbCanvas.ts`,
lines 218-227): returns the draft passed to `onLinkDetached`, or `none` when
no notification is emitted. -/
def onConnectionDetachedEvent (syncing : Bool)
    (sourcePortId targetPortId sourceNodeId targetNodeId : Option String) :
    Option DraftConnection :=
  if syncing then none
  else toDraftConnection sourcePortId targetPortId sourceNodeId targetNodeId

/-! ### Connection reconciliation

The reconcile `useLayoutEffect` (`src/src/hooks/useJsPlumbCanvas.ts`, lines
356-436 and `src/unnamed/part_002`, lines 643-723) is modelled as a pure
pass over a store of connection objects.  A jsPlumb `Connection` object is a
mutable record; deleting it from the engine does not destroy the JS object,
so the store keeps every object ever created together with an `alive` flag
(the engine's live set is the alive subset). -/

/-- An engine connection object.  `tag` is the `CONNECTION_ID_PARAM`
parameter, `handlers` the `CONNECTION_HANDLERS_PARAM` marker, `classParam`
the `CONNECTION_CLASS_PARAM` parameter, `src`/`tgt` the endpoint uuids
returned by `getUuids()`. -/
structure ConnObj where
  oid : Nat
  alive : Bool
  tag : Option String
  src : String
  tgt : String
  handlers : Bool
  detachable : Bool
  classParam : Option String
  cssClasses : List String
  overlays : List String
  label : String
  deriving Repr, DecidableEq

/-- A declared `FlowConnection` (`src/src/types.ts`): identity, endpoint
references, and the metadata consumed by the reconciler.  Optional JS
fields are `Option`s. -/
structure FlowConnection where
  id : String
  source : ConnEndpointRef
  target : ConnEndpointRef
  label : Option String
  className : Option String
  editable : Option Bool
  deriving Repr, DecidableEq

/-- JS `Map.set` on a string-keyed map (overwrites the key). -/
def mapSet (m : List (String × Nat)) (k : String) (v : Nat) : List (String × Nat) :=
  m.filter (fun e => e.1 != k) ++ [(k, v)]

/-- JS `Map.get`. -/
def mapGet (m : List (String × Nat)) (k : String) : Option Nat :=
  (m.find? (fun e => e.1 == k)).map (·.2)

/-- JS `Map.delete`. -/
def mapErase (m : List (String × Nat)) (k : String) : List (String × Nat) :=
  m.filter (fun e => e.1 != k)

/-- Look an object up in the store by object identity. -/
def storeFind (store : List ConnObj) (oid : Nat) : Option ConnObj :=
  store.find? (fun c => c.oid == oid)

/-- Mutate one object of the store in place. -/
def storeUpdate (store : List ConnObj) (oid : Nat) (f : ConnObj → ConnObj) :
    List ConnObj :=
  store.map (fun c => if c.oid == oid then f c else c)

/-- `jp.deleteConnection`: removes the object from the engine's live set. -/
def killConn (store : List ConnObj) (oid : Nat) : List ConnObj :=
  storeUpdate store oid (fun c => { c with alive := false })

/-- The `CONNECTION_ID_PARAM` tag currently carried by an object. -/
def tagOf (store : List ConnObj) (oid : Nat) : Option String :=
  (storeFind store oid).bind (fun c => c.tag)

/-- `getUuids()` of an object (the empty pair for a missing object; maps
only ever hold objects present in the store). -/
def connUuids (store : List ConnObj) (oid : Nat) : String × String :=
  match storeFind store oid with
  | some c => (c.src, c.tgt)
  | none => ("", "")

/-- The template-string key `sourceUuid + "|" + targetUuid` used for the
`byUuid` map. -/
def pairKey (sourceUuid targetUuid : String) : String :=
  sourceUuid ++ "|" ++ targetUuid

/-- DOM-style `addClass`: adds the class when absent. -/
def addClass (cs : List String) (x : String) : List String :=
  if x ∈ cs then cs else cs ++ [x]

/-- DOM-style `removeClass`. -/
def removeClass (cs : List String) (x : String) : List String :=
  cs.filter (fun v => v != x)

/-- `attachConnectionHandlers` (`src/src/hooks/useJsPlumbCanvas.ts`, lines
74-119): guarded by the `CONNECTION_HANDLERS_PARAM` marker, so a second
call is a no-op; the bindings themselves are summarised by the marker. -/
def attachHandlers (store : List ConnObj) (oid : Nat) : List ConnObj :=
  storeUpdate store oid (fun c => { c with handlers := true })

/-- `ensureDeleteOverlay` (`src/src/hooks/useJsPlumbCanvas.ts`, lines
121-150): adds overlay `"delete-" ++ id` when no overlay of that id
exists. -/
def ensureDeleteOverlay (store : List ConnObj) (oid : Nat) (id : String) :
    List ConnObj :=
  storeUpdate store oid (fun c =>
    let overlayId := "delete-" ++ id
    if overlayId ∈ c.overlays then c
    else { c with overlays := c.overlays ++ [overlayId] })

/-- `updateConnectionMetadata` (`src/src/hooks/useJsPlumbCanvas.ts`, lines
152-172) applied to one object.  `selectionConnections` is
`selection.connections`. -/
def updateConnectionMetadata (selectionConnections : List String)
    (data : FlowConnection) (c : ConnObj) : ConnObj :=
  let c := { c with tag := some data.id }
  let c :=
    match c.classParam with
    | some prev =>
      if prev != "" && some prev != data.className then
        { c with cssClasses := removeClass c.cssClasses prev }
      else c
    | none => c
  let c :=
    match data.className with
    | some cls =>
      if cls != "" then { c with cssClasses := addClass c.cssClasses cls } else c
    | none => c
  let c := { c with classParam := some (data.className.getD "") }
  let c := { c with detachable := data.editable != some false }
  let c := { c with cssClasses := addClass c.cssClasses "jr-connection" }
  let c := { c with cssClasses := removeClass c.cssClasses "jr-selected" }
  let c :=
    if data.id ∈ selectionConnections then
      { c with cssClasses := addClass c.cssClasses "jr-selected" }
    else c
  { c with label := data.label.getD "" }

/-- How a declared connection was settled during the pass (observational
trace for the theorems; `tagAtReuse` is the tag the reused object carried
at the moment the `byUuid` entry was taken). -/
inductive MatchPath where
  | skipped
  | tagMatch (oid : Nat)
  | pairReuse (oid : Nat) (tagAtReuse : Option String)
  | created (oid : Nat)
  deriving Repr, DecidableEq

/-- State threaded through one reconciliation pass. -/
structure PassState where
  store : List ConnObj
  connMap : List (String × Nat)
  existing : List (String × Nat)
  byUuid : List (String × Nat)
  nextOid : Nat
  trace : List (String × MatchPath)
  deriving Repr, DecidableEq

/-- The map-building loop at the top of the pass: `existing` maps the
`CONNECTION_ID_PARAM` tag of every tagged live connection to the object,
`byUuid` maps `sourceUuid|targetUuid` of every live connection (tagged or
not) to the object; later enumerated connections overwrite earlier ones. -/
def buildMaps (live : List ConnObj) :
    List (String × Nat) × List (String × Nat) :=
  live.foldl
    (fun maps c =>
      let ex :=
        match c.tag with
        | some t => mapSet maps.1 t c.oid
        | none => maps.1
      (ex, mapSet maps.2 (pairKey c.src c.tgt) c.oid))
    ([], [])

/-- The body of `connections.forEach((data) => ...)`: steps a-f of the
matching algorithm for one declared connection. -/
def processConnection (endpoints : List String) (selectionConnections : List String)
    (st : PassState) (data : FlowConnection) : PassState :=
  let sourceUuid := getEndpointUuid data.source.nodeId data.source.portId
  let targetUuid := getEndpointUuid data.target.nodeId data.target.portId
  if !(endpoints.contains sourceUuid && endpoints.contains targetUuid) then
    { st with trace := st.trace ++ [(data.id, MatchPath.skipped)] }
  else
    let afterTag :
        PassState × Option Nat :=
      match mapGet st.existing data.id with
      | some oid =>
        if connUuids st.store oid == (sourceUuid, targetUuid) then (st, some oid)
        else
          ({ st with
              store := killConn st.store oid
              connMap := mapErase st.connMap data.id }, none)
      | none => (st, none)
    let st := afterTag.1
    let afterReuse : PassState × Option (Nat × MatchPath) :=
      match afterTag.2 with
      | some oid => (st, some (oid, MatchPath.tagMatch oid))
      | none =>
        let key := pairKey sourceUuid targetUuid
        match mapGet st.byUuid key with
        | some oid =>
          ({ st with byUuid := mapErase st.byUuid key },
            some (oid, MatchPath.pairReuse oid (tagOf st.store oid)))
        | none => (st, none)
    let st := afterReuse.1
    let afterCreate : PassState × Nat × MatchPath :=
      match afterReuse.2 with
      | some (oid, path) => (st, oid, path)
      | none =>
        let oid := st.nextOid
        let newConn : ConnObj :=
          { oid := oid, alive := true, tag := none
            src := sourceUuid, tgt := targetUuid
            handlers := false
            detachable := data.editable != some false
            classParam := none, cssClasses := [], overlays := [], label := "" }
        ({ st with store := st.store ++ [newConn], nextOid := oid + 1 },
          oid, MatchPath.created oid)
    let st := afterCreate.1
    let oid := afterCreate.2.1
    let path := afterCreate.2.2
    let store := attachHandlers st.store oid
    let store := ensureDeleteOverlay store oid data.id
    let store := storeUpdate store oid (updateConnectionMetadata selectionConnections data)
    { st with
      store := store
      connMap := mapSet st.connMap data.id oid
      existing := mapErase st.existing data.id
      trace := st.trace ++ [(data.id, path)] }

/-- The `existing.forEach` cleanup after the declared list is processed:
every still-recorded tagged connection is deleted without firing events and
its id dropped from `connectionMapRef`. -/
def cleanupPass (st : PassState) : PassState :=
  st.existing.foldl
    (fun acc e =>
      { acc with store := killConn acc.store e.2, connMap := mapErase acc.connMap e.1 })
    st

/-- One full reconciliation pass: build the `existing`/`byUuid` maps from
the flattened live connection list, process each declared connection in
order, then delete the unclaimed remainder of `existing`.  `endpoints` is
the set of uuids present in `endpointMapRef`. -/
def reconcileConnections (endpoints : List String) (selectionConnections : List String)
    (store : List ConnObj) (connMap : List (String × Nat)) (nextOid : Nat)
    (declared : List FlowConnection) : PassState :=
  let live := store.filter (fun c => c.alive)
  let maps := buildMaps live
  let st0 : PassState :=
    { store := store, connMap := connMap, existing := maps.1, byUuid := maps.2
      nextOid := nextOid, trace := [] }
  cleanupPass (declared.foldl (processConnection endpoints selectionConnections) st0)

/-- The observable convergence data: `(tag, sourceUuid, targetUuid)` of
every live tagged connection. -/
def liveTagged (store : List ConnObj) : List (String × String × String) :=
  (store.filter (fun c => c.alive)).filterMap
    (fun c => c.tag.map (fun t => (t, c.src, c.tgt)))

/-- The full node-click transition of the selection manager: the displayed
selection is the `useMemo` combination of props and internal state
(`src/src/hooks/useSelectionManager.ts`, lines 25-31), `updateNodeSelection`
computes the next pair from it, and `emitSelection` applies it.  Returns
`(new internal state, emitted selection)`. -/
def nodeClickTransition (allowMulti modifier : Bool)
    (nodesProp connsProp : Option (List String)) (internal : CanvasSelection)
    (nodeId : String) : CanvasSelection × CanvasSelection :=
  let current : CanvasSelection :=
    { nodes := nodesProp.getD internal.nodes
      connections := connsProp.getD internal.connections }
  let next := updateNodeSelection allowMulti modifier current nodeId
  emitSelection nodesProp connsProp internal next.1 next.2

/-- The internal selection transitions: node click, connection click and
canvas-background click (which calls `emitSelection([], [])`). -/
inductive ClickEvent where
  | nodeClick (id : String) (modifier : Bool)
  | connClick (id : String) (modifier : Bool)
  | canvasClear
  deriving Repr, DecidableEq

/-- The pair handed to `emitSelection` by one internal transition, given
the current displayed selection `s`. -/
def selectionStep (allowMulti : Bool) (s : CanvasSelection) :
    ClickEvent → List String × List String
  | .nodeClick id modifier => updateNodeSelection allowMulti modifier s id
  | .connClick id modifier => connectionClickSelection allowMulti modifier s id
  | .canvasClear => ([], [])

/-- Run a sequence of internal transitions from a state with both sets
uncontrolled (so the stored state and every emission equal the computed
pair).  Returns the final state and the list of emitted selections. -/
def runSelection (allowMulti : Bool) :
    CanvasSelection → List ClickEvent → CanvasSelection × List CanvasSelection
  | s, [] => (s, [])
  | s, e :: es =>
    let next := selectionStep allowMulti s e
    let s' : CanvasSelection := ⟨next.1, next.2⟩
    let rest := runSelection allowMulti s' es
    (rest.1, s' :: rest.2)

/-! ### Theorems -/

/-- `uniqueListAux` returns a duplicate-free list avoiding `seen`. -/
theorem uniqueListAux_nodup (l : List String) : ∀ seen : List String,
    (uniqueListAux seen l).Nodup ∧ ∀ x ∈ uniqueListAux seen l, x ∉ seen := by
  induction l with
  | nil => intro seen; simp [uniqueListAux]
  | cons x xs ih =>
    intro seen
    by_cases hx : x ∈ seen
    · simpa [uniqueListAux, hx] using ih seen
    · have h' := ih (x :: seen)
      refine ⟨?_, ?_⟩
      · simp only [uniqueListAux, if_neg hx, List.nodup_cons]
        refine ⟨fun hmem => ?_, h'.1⟩
        exact (h'.2 x hmem) (List.mem_cons_self x seen)
      · intro y hy
        simp only [uniqueListAux, if_neg hx, List.mem_cons] at hy
        rcases hy with rfl | hy
        · exact hx
        · intro hc
          exact (h'.2 y hy) (List.mem_cons_of_mem x hc)

/-- `uniqueList` always returns a duplicate-free list. -/
theorem uniqueList_nodup (l : List String) : (uniqueList l).Nodup :=
  (uniqueListAux_nodup l []).1

/-- C4: for every selection transition funnelled through `emitSelection`,
a controlled set's stored internal state is left unchanged and the value
emitted for it is the externally supplied one, not the computed one. -/
theorem claim_C4_controlled_sets (nodesProp connsProp : Option (List String))
    (previous : CanvasSelection) (nextNodes nextConnections vn vc : List String) :
    (nodesProp = some vn →
      (emitSelection nodesProp connsProp previous nextNodes nextConnections).1.nodes
          = previous.nodes ∧
      (emitSelection nodesProp connsProp previous nextNodes nextConnections).2.nodes = vn) ∧
    (connsProp = some vc →
      (emitSelection nodesProp connsProp previous nextNodes nextConnections).1.connections
          = previous.connections ∧
      (emitSelection nodesProp connsProp previous nextNodes nextConnections).2.connections
          = vc) := by
  constructor
  · rintro rfl
    simp [emitSelection]
  · rintro rfl
    simp [emitSelection]

/-- C4 witness at a concrete controlled input. -/
theorem claim_C4_witness :
    (emitSelection (some ["x"]) (some ["y"]) ⟨["p"], ["q"]⟩ ["n"] ["c"]).1.nodes = ["p"] ∧
    (emitSelection (some ["x"]) (some ["y"]) ⟨["p"], ["q"]⟩ ["n"] ["c"]).2.nodes = ["x"] ∧
    (emitSelection (some ["x"]) (some ["y"]) ⟨["p"], ["q"]⟩ ["n"] ["c"]).1.connections = ["q"] ∧
    (emitSelection (some ["x"]) (some ["y"]) ⟨["p"], ["q"]⟩ ["n"] ["c"]).2.connections = ["y"] := by
  obtain ⟨h1, h2⟩ :=
    claim_C4_controlled_sets (some ["x"]) (some ["y"]) ⟨["p"], ["q"]⟩ ["n"] ["c"] ["x"] ["y"]
  obtain ⟨a, b⟩ := h1 rfl
  obtain ⟨c, d⟩ := h2 rfl
  exact ⟨a, b, c, d⟩

/-- C5: with multi-select disabled or no modifier held, a node click
computes the pair `([N], [])` whatever the prior selection, and the full
uncontrolled transition stores and emits exactly `{nodes := [N],
connections := []}`. -/
theorem claim_C5_exclusive_click (allowMulti modifier : Bool)
    (internal current : CanvasSelection) (nodeId : String)
    (h : (allowMulti && modifier) = false) :
    updateNodeSelection allowMulti modifier current nodeId = ([nodeId], []) ∧
    nodeClickTransition allowMulti modifier none none internal nodeId
      = (⟨[nodeId], []⟩, ⟨[nodeId], []⟩) := by
  constructor
  · simp [updateNodeSelection, h, uniqueList, uniqueListAux]
  · simp [nodeClickTransition, updateNodeSelection, emitSelection, h, uniqueList, uniqueListAux]

/-- C5 witness: non-modifier click on `"N"` from a saturated prior
selection. -/
theorem claim_C5_witness :
    updateNodeSelection true false ⟨["a", "b"], ["e1", "e2"]⟩ "N" = (["N"], []) ∧
    nodeClickTransition true false none none ⟨["a", "b"], ["e1", "e2"]⟩ "N"
      = (⟨["N"], []⟩, ⟨["N"], []⟩) :=
  claim_C5_exclusive_click true false ⟨["a", "b"], ["e1", "e2"]⟩ ⟨["a", "b"], ["e1", "e2"]⟩ "N"
    (by decide)

/-- C7: `setZoom`/`zoomIn`/`zoomOut` always clamp into `[minZoom, maxZoom]`,
and in the spec's scenario (zoom 1, bounds [1/4, 2], step 1/10) six
`zoomIn()` calls yield 8/5 = 1.6 (no clamping) while ten calls yield
exactly 2. -/
theorem claim_C7_zoom_clamping (minZoom maxZoom zoomStep z value : ℚ)
    (h : minZoom ≤ maxZoom) :
    (minZoom ≤ setZoomInternal minZoom maxZoom value ∧
      setZoomInternal minZoom maxZoom value ≤ maxZoom) ∧
    (minZoom ≤ zoomIn minZoom maxZoom zoomStep z ∧
      zoomIn minZoom maxZoom zoomStep z ≤ maxZoom) ∧
    (minZoom ≤ zoomOut minZoom maxZoom zoomStep z ∧
      zoomOut minZoom maxZoom zoomStep z ≤ maxZoom) ∧
    iterateZoomIn (1/4) 2 (1/10) 6 1 = 8/5 ∧
    iterateZoomIn (1/4) 2 (1/10) 10 1 = 2 := by
  have hb : ∀ v : ℚ, minZoom ≤ clampZoom minZoom maxZoom v ∧
      clampZoom minZoom maxZoom v ≤ maxZoom := by
    intro v
    exact ⟨le_min h (le_max_left _ _), min_le_left _ _⟩
  refine ⟨hb value, hb _, hb _, ?_, ?_⟩ <;>
    norm_num [iterateZoomIn, zoomIn, setZoomInternal, clampZoom, min_def, max_def]

/-- C7 witness at the spec's concrete bounds. -/
theorem claim_C7_witness :
    ((1 : ℚ)/4 ≤ setZoomInternal (1/4) 2 3 ∧ setZoomInternal (1/4) 2 3 ≤ 2) ∧
    ((1 : ℚ)/4 ≤ zoomIn (1/4) 2 (1/10) 1 ∧ zoomIn (1/4) 2 (1/10) 1 ≤ 2) ∧
    ((1 : ℚ)/4 ≤ zoomOut (1/4) 2 (1/10) 1 ∧ zoomOut (1/4) 2 (1/10) 1 ≤ 2) ∧
    iterateZoomIn (1/4) 2 (1/10) 6 1 = 8/5 ∧
    iterateZoomIn (1/4) 2 (1/10) 10 1 = 2 :=
  claim_C7_zoom_clamping (1/4) 2 (1/10) 1 3 (by norm_num)

/-- C8: when the connection-created callback returns `false` for a
direct-manipulation connection (reconciliation not in progress, a real
browser event, resolvable draft), the new engine connection is deleted with
event firing suppressed; any other return value leaves it in place. -/
theorem claim_C8_veto_rollback (sp tp sn tn : Option String)
    (cb : DraftConnection → Option Bool) (draft : DraftConnection)
    (hd : toDraftConnection sp tp sn tn = some draft) :
    (cb draft = some false →
      onConnectionEvent false true sp tp sn tn cb
        = ConnectionEventOutcome.deleted draft false) ∧
    (cb draft ≠ some false →
      onConnectionEvent false true sp tp sn tn cb
        = ConnectionEventOutcome.kept draft) := by
  constructor
  · intro hcb
    simp [onConnectionEvent, hd, hcb]
  · intro hcb
    simp [onConnectionEvent, hd, hcb]

/-- C8 witness: a vetoed and a non-vetoed creation at a concrete draft. -/
theorem claim_C8_witness :
    onConnectionEvent false true (some "out") (some "in") (some "A") (some "B")
        (fun _ => some false)
      = ConnectionEventOutcome.deleted
          ⟨⟨"A", some "out"⟩, ⟨"B", some "in"⟩⟩ false ∧
    onConnectionEvent false true (some "out") (some "in") (some "A") (some "B")
        (fun _ => some true)
      = ConnectionEventOutcome.kept ⟨⟨"A", some "out"⟩, ⟨"B", some "in"⟩⟩ := by
  refine ⟨?_, ?_⟩
  · exact (claim_C8_veto_rollback (some "out") (some "in") (some "A") (some "B")
      (fun _ => some false) ⟨⟨"A", some "out"⟩, ⟨"B", some "in"⟩⟩ (by decide)).1 rfl
  · exact (claim_C8_veto_rollback (some "out") (some "in") (some "A") (some "B")
      (fun _ => some true) ⟨⟨"A", some "out"⟩, ⟨"B", some "in"⟩⟩ (by decide)).2 (by decide)

/-- C10: a draft delivered to the creation or detachment notification never
carries the reserved default port identity, and when either owning node
identity is unresolvable (`null` ancestor/attribute or the falsy empty
string) no draft is produced and neither handler emits anything. -/
theorem claim_C10_draft_normalization (sp tp sn tn : Option String) (syncing : Bool) :
    (∀ d, toDraftConnection sp tp sn tn = some d →
      d.source.portId ≠ some DEFAULT_PORT_ID ∧ d.target.portId ≠ some DEFAULT_PORT_ID) ∧
    ((truthyString sn = false ∨ truthyString tn = false) →
      toDraftConnection sp tp sn tn = none ∧
      onConnectionDetachedEvent syncing sp tp sn tn = none ∧
      ∀ (hasEvt : Bool) (cb : DraftConnection → Option Bool),
        onConnectionEvent syncing hasEvt sp tp sn tn cb
          = ConnectionEventOutcome.ignored) := by
  constructor
  · intro d hd
    unfold toDraftConnection at hd
    split at hd
    · injection hd with hd
      subst hd
      constructor
      · by_cases h : sp = some DEFAULT_PORT_ID <;> simp [h]
      · by_cases h : tp = some DEFAULT_PORT_ID <;> simp [h]
    · exact absurd hd (by simp)
  · intro hfalsy
    have hnone : toDraftConnection sp tp sn tn = none := by
      unfold toDraftConnection
      rcases hfalsy with h | h <;> simp [h]
    refine ⟨hnone, ?_, ?_⟩
    · unfold onConnectionDetachedEvent
      split <;> simp [hnone]
    · intro hasEvt cb
      unfold onConnectionEvent
      split
      · rfl
      · simp [hnone]

/-- C10 witness: a default-port draft is normalized, and an unresolvable
source node suppresses both notifications. -/
theorem claim_C10_witness :
    ((toDraftConnection (some "default") (some "in") (some "A") (some "B")
        = some ⟨⟨"A", none⟩, ⟨"B", some "in"⟩⟩) ∧
      (⟨⟨"A", none⟩, ⟨"B", some "in"⟩⟩ : DraftConnection).source.portId
          ≠ some DEFAULT_PORT_ID) ∧
    (toDraftConnection (some "out") (some "in") none (some "B") = none ∧
      onConnectionDetachedEvent false (some "out") (some "in") none (some "B") = none) := by
  refine ⟨⟨by decide, ?_⟩, ?_, ?_⟩
  · exact ((claim_C10_draft_normalization (some "default") (some "in") (some "A") (some "B")
      false).1 ⟨⟨"A", none⟩, ⟨"B", some "in"⟩⟩ (by decide)).1
  · exact ((claim_C10_draft_normalization (some "out") (some "in") none (some "B")
      false).2 (Or.inl rfl)).1
  · exact ((claim_C10_draft_normalization (some "out") (some "in") none (some "B")
      false).2 (Or.inl rfl)).2.1

/-- C6: the modifier-held wheel zoom preserves the graph-space point under
the pointer: with the recomputed pan and the clamped next zoom, the pointer
maps to the same graph coordinates as before (exactly, over ℚ). -/
theorem claim_C6_anchor_preserving_zoom (minZoom maxZoom zoomStep px py panX panY z : ℚ)
    (deltaYPos : Bool) (hmm : minZoom ≤ maxZoom) (hmin : 0 < minZoom) :
    (px - (handleWheel minZoom maxZoom zoomStep px py panX panY z deltaYPos).2.1)
        / (handleWheel minZoom maxZoom zoomStep px py panX panY z deltaYPos).1
      = (px - panX) / z ∧
    (py - (handleWheel minZoom maxZoom zoomStep px py panX panY z deltaYPos).2.2)
        / (handleWheel minZoom maxZoom zoomStep px py panX panY z deltaYPos).1
      = (py - panY) / z := by
  have hband : ∀ v : ℚ, 0 < setZoomInternal minZoom maxZoom v := fun v =>
    lt_of_lt_of_le hmin (le_min hmm (le_max_left _ _))
  have key : ∀ p pan z' : ℚ, z' ≠ 0 →
      (p - (p - (p - pan) / z * z')) / z' = (p - pan) / z := by
    intro p pan z' hz'
    rw [show p - (p - (p - pan) / z * z') = (p - pan) / z * z' by ring]
    exact mul_div_cancel_right₀ _ hz'
  simp only [handleWheel]
  exact ⟨key px panX _ (hband _).ne', key py panY _ (hband _).ne'⟩

/-- C6 witness: pointer (100, 50), pan (10, 20), zoom 1, zoom-in step. -/
theorem claim_C6_witness :
    (100 - (handleWheel (1/4) 2 (1/10) 100 50 10 20 1 false).2.1)
        / (handleWheel (1/4) 2 (1/10) 100 50 10 20 1 false).1
      = ((100 : ℚ) - 10) / 1 ∧
    (50 - (handleWheel (1/4) 2 (1/10) 100 50 10 20 1 false).2.2)
        / (handleWheel (1/4) 2 (1/10) 100 50 10 20 1 false).1
      = ((50 : ℚ) - 20) / 1 :=
  claim_C6_anchor_preserving_zoom (1/4) 2 (1/10) 100 50 10 20 1 false
    (by norm_num) (by norm_num)

/-- Splitting a list around a separator absent from both prefixes is
unique. -/
theorem append_cons_eq_of_not_mem {α : Type} [DecidableEq α] (c : α) :
    ∀ (l₁ l₂ r₁ r₂ : List α), c ∉ l₁ → c ∉ l₂ →
      l₁ ++ c :: r₁ = l₂ ++ c :: r₂ → l₁ = l₂ ∧ r₁ = r₂ := by
  intro l₁
  induction l₁ with
  | nil =>
    intro l₂ r₁ r₂ h₁ h₂ h
    cases l₂ with
    | nil => simpa using h
    | cons b l₂' =>
      simp only [List.nil_append, List.cons_append, List.cons.injEq] at h
      obtain ⟨hcb, -⟩ := h
      exact absurd (hcb ▸ List.mem_cons_self b l₂') h₂
  | cons a l₁' ih =>
    intro l₂ r₁ r₂ h₁ h₂ h
    cases l₂ with
    | nil =>
      simp only [List.cons_append, List.nil_append, List.cons.injEq] at h
      obtain ⟨hac, -⟩ := h
      exact absurd (hac ▸ List.mem_cons_self a l₁') h₁
    | cons b l₂' =>
      simp only [List.cons_append, List.cons.injEq] at h
      obtain ⟨hab, h'⟩ := h
      subst hab
      have hrec := ih l₂' r₁ r₂ (fun hm => h₁ (List.mem_cons_of_mem _ hm))
        (fun hm => h₂ (List.mem_cons_of_mem _ hm)) h'
      exact ⟨by rw [hrec.1], hrec.2⟩

/-- C2 counterexample: two distinct (nodeId, portId) pairs — nodes `"a:b"`
and `"a"` with unique identities and per-node-unique ports, both nodeIds
non-empty — produce the same endpoint identity string. -/
theorem claim_C2_uuid_collision :
    getEndpointUuid "a:b" (some "c") = getEndpointUuid "a" (some "b:c") ∧
    (("a:b", some "c") : String × Option String) ≠ ("a", some "b:c") ∧
    ("a:b" : String) ≠ "" ∧ ("a" : String) ≠ "" := by
  refine ⟨?_, by decide, by decide, by decide⟩
  rfl

/-- C2 (amended): `getEndpointUuid` is a pure total function, defined for
every nodeId, and injective on (nodeId, normalized portId) pairs provided
additionally that no node identity contains the separator `':'`. -/
theorem claim_C2_uuid_injective_without_separator (n₁ n₂ : String) (p₁ p₂ : Option String)
    (h₁ : ':' ∉ n₁.data) (h₂ : ':' ∉ n₂.data)
    (h : getEndpointUuid n₁ p₁ = getEndpointUuid n₂ p₂) :
    n₁ = n₂ ∧ p₁.getD DEFAULT_PORT_ID = p₂.getD DEFAULT_PORT_ID := by
  unfold getEndpointUuid at h
  have hdata := congrArg String.data h
  simp only [String.data_append, List.append_assoc, List.singleton_append] at hdata
  obtain ⟨hn, hq⟩ := append_cons_eq_of_not_mem ':' n₁.data n₂.data _ _ h₁ h₂ hdata
  exact ⟨String.ext hn, String.ext hq⟩

/-- C2 witness: colliding uuids with colon-free node identities force equal
pairs. -/
theorem claim_C2_witness :
    ("A" : String) = "A" ∧ (some "out" : Option String).getD DEFAULT_PORT_ID
      = (some "out" : Option String).getD DEFAULT_PORT_ID :=
  claim_C2_uuid_injective_without_separator "A" "A" (some "out") (some "out")
    (by decide) (by decide) rfl

/-- Each internal selection transition hands `emitSelection` duplicate-free
lists. -/
theorem selectionStep_nodup (allowMulti : Bool) (s : CanvasSelection) (e : ClickEvent) :
    (selectionStep allowMulti s e).1.Nodup ∧ (selectionStep allowMulti s e).2.Nodup := by
  cases e with
  | nodeClick id modifier =>
    simp only [selectionStep, updateNodeSelection]
    exact ⟨uniqueList_nodup _, uniqueList_nodup _⟩
  | connClick id modifier =>
    simp only [selectionStep, connectionClickSelection]
    exact ⟨uniqueList_nodup _, uniqueList_nodup _⟩
  | canvasClear => simp [selectionStep]

/-- `runSelection` preserves duplicate-freeness from any duplicate-free
start. -/
theorem runSelection_nodup (allowMulti : Bool) (evs : List ClickEvent) :
    ∀ s : CanvasSelection, s.nodes.Nodup → s.connections.Nodup →
      (runSelection allowMulti s evs).1.nodes.Nodup ∧
      (runSelection allowMulti s evs).1.connections.Nodup ∧
      ∀ sel ∈ (runSelection allowMulti s evs).2,
        sel.nodes.Nodup ∧ sel.connections.Nodup := by
  induction evs with
  | nil =>
    intro s hn hc
    simp only [runSelection]
    exact ⟨hn, hc, by simp⟩
  | cons e es ih =>
    intro s hn hc
    have hstep := selectionStep_nodup allowMulti s e
    have hrest := ih ⟨(selectionStep allowMulti s e).1, (selectionStep allowMulti s e).2⟩
      hstep.1 hstep.2
    simp only [runSelection]
    refine ⟨hrest.1, hrest.2.1, ?_⟩
    intro sel hsel
    simp only [List.mem_cons] at hsel
    rcases hsel with rfl | hsel
    · exact hstep
    · exact hrest.2.2 sel hsel

/-- C9: starting from the empty uncontrolled selection, every sequence of
internal transitions (node clicks, connection clicks, canvas clears) keeps
the stored selection and every emitted selection duplicate-free in both
identity lists. -/
theorem claim_C9_no_duplicate_selection (allowMulti : Bool) (evs : List ClickEvent) :
    (runSelection allowMulti ⟨[], []⟩ evs).1.nodes.Nodup ∧
    (runSelection allowMulti ⟨[], []⟩ evs).1.connections.Nodup ∧
    ∀ sel ∈ (runSelection allowMulti ⟨[], []⟩ evs).2,
      sel.nodes.Nodup ∧ sel.connections.Nodup :=
  runSelection_nodup allowMulti evs ⟨[], []⟩ (by simp) (by simp)

/-- C9 witness: a concrete click sequence with repeated identities. -/
theorem claim_C9_witness :
    (runSelection true ⟨[], []⟩
        [ClickEvent.nodeClick "a" true, ClickEvent.nodeClick "b" true,
         ClickEvent.connClick "e" true, ClickEvent.nodeClick "a" false]).1.nodes.Nodup ∧
    ((⟨["a"], []⟩ : CanvasSelection) ∈ (runSelection true ⟨[], []⟩
        [ClickEvent.nodeClick "a" true, ClickEvent.nodeClick "b" true,
         ClickEvent.connClick "e" true, ClickEvent.nodeClick "a" false]).2 →
      (⟨["a"], []⟩ : CanvasSelection).nodes.Nodup) := by
  have h := claim_C9_no_duplicate_selection true
    [ClickEvent.nodeClick "a" true, ClickEvent.nodeClick "b" true,
     ClickEvent.connClick "e" true, ClickEvent.nodeClick "a" false]
  exact ⟨h.1, fun hm => (h.2.2 _ hm).1⟩

/-- C1: evaluation at the failing input.  One live connection tagged `"b"`
spans the resolved pair `(A:out, B:in)`; the declared list is
`[{id := "a"}]` with the same resolvable pair.  The pass claims the
connection for `"a"` via endpoint-pair reuse, but the cleanup still holds
the stale `existing["b"]` entry for the same object and deletes it, so the
pass ends with zero live connections: the resolvable declared connection
`"a"` has no live tagged connection, contradicting convergence. -/
theorem claim_C1_reconcile_loses_reused_connection :
    liveTagged (reconcileConnections ["A:out", "B:in"] []
        [{ oid := 0, alive := true, tag := some "b", src := "A:out", tgt := "B:in",
           handlers := true, detachable := true, classParam := some "",
           cssClasses := ["jr-connection"], overlays := ["delete-b"], label := "" }]
        [("b", 0)] 1
        [{ id := "a", source := ⟨"A", some "out"⟩, target := ⟨"B", some "in"⟩,
           label := none, className := none, editable := none }]).store = [] ∧
    (reconcileConnections ["A:out", "B:in"] []
        [{ oid := 0, alive := true, tag := some "b", src := "A:out", tgt := "B:in",
           handlers := true, detachable := true, classParam := some "",
           cssClasses := ["jr-connection"], overlays := ["delete-b"], label := "" }]
        [("b", 0)] 1
        [{ id := "a", source := ⟨"A", some "out"⟩, target := ⟨"B", some "in"⟩,
           label := none, className := none, editable := none }]).trace
      = [("a", MatchPath.pairReuse 0 (some "b"))] ∧
    ["A:out", "B:in"].contains (getEndpointUuid "A" (some "out")) = true ∧
    ["A:out", "B:in"].contains (getEndpointUuid "B" (some "in")) = true := by
  refine ⟨rfl, rfl, rfl, rfl⟩

/-- C3 counterexample: with declared connections `"a"` and `"b"` sharing
the resolved pair `(A:out, B:in)` and a live connection tagged `"b"` on
that pair, the pass settles `"a"` by endpoint-pair reuse of the connection
tagged with the other declared identity `"b"` — the reuse step does not
require the candidate to be untagged. -/
theorem claim_C3_tagged_connection_reused :
    (reconcileConnections ["A:out", "B:in"] []
        [{ oid := 0, alive := true, tag := some "b", src := "A:out", tgt := "B:in",
           handlers := true, detachable := true, classParam := some "",
           cssClasses := ["jr-connection"], overlays := ["delete-b"], label := "" }]
        [("b", 0)] 1
        [{ id := "a", source := ⟨"A", some "out"⟩, target := ⟨"B", some "in"⟩,
           label := none, className := none, editable := none },
         { id := "b", source := ⟨"A", some "out"⟩, target := ⟨"B", some "in"⟩,
           label := none, className := none, editable := none }]).trace
      = [("a", MatchPath.pairReuse 0 (some "b")), ("b", MatchPath.tagMatch 0)] ∧
    (some "b" : Option String) ≠ none ∧ ("b" : String) ≠ "a" := by
  refine ⟨rfl, by decide, by decide⟩

/-- C3 (amended): when a declared connection with resolvable endpoints is
unmatched by the identity-tag lookup, the reconciler reuses the live
connection indexed under the resolved endpoint pair regardless of the
identity tag that connection carries (the trace records whatever tag it had
at reuse time); pair reuse still takes precedence over creation. -/
theorem claim_C3_pair_reuse_ignores_tag (endpoints selConns : List String)
    (st : PassState) (data : FlowConnection) (oid : Nat)
    (hs : endpoints.contains (getEndpointUuid data.source.nodeId data.source.portId) = true)
    (ht : endpoints.contains (getEndpointUuid data.target.nodeId data.target.portId) = true)
    (hid : mapGet st.existing data.id = none)
    (hreu : mapGet st.byUuid
        (pairKey (getEndpointUuid data.source.nodeId data.source.portId)
          (getEndpointUuid data.target.nodeId data.target.portId)) = some oid) :
    (processConnection endpoints selConns st data).trace
      = st.trace ++ [(data.id, MatchPath.pairReuse oid (tagOf st.store oid))] := by
  have hs' : getEndpointUuid data.source.nodeId data.source.portId ∈ endpoints := by
    simpa using hs
  have ht' : getEndpointUuid data.target.nodeId data.target.portId ∈ endpoints := by
    simpa using ht
  simp [processConnection, hs', ht', hid, hreu]

/-- C3 witness: the amended reuse behaviour at a concrete state whose
by-pair candidate is tagged. -/
theorem claim_C3_witness :
    (processConnection ["A:out", "B:in"] []
        { store := [{ oid := 0, alive := true, tag := some "b", src := "A:out",
                      tgt := "B:in", handlers := true, detachable := true,
                      classParam := some "", cssClasses := ["jr-connection"],
                      overlays := ["delete-b"], label := "" }]
          connMap := [("b", 0)], existing := [("b", 0)]
          byUuid := [("A:out|B:in", 0)], nextOid := 1, trace := [] }
        { id := "a", source := ⟨"A", some "out"⟩, target := ⟨"B", some "in"⟩,
          label := none, className := none, editable := none }).trace
      = [] ++ [("a", MatchPath.pairReuse 0 (tagOf
          [{ oid := 0, alive := true, tag := some "b", src := "A:out",
             tgt := "B:in", handlers := true, detachable := true,
             classParam := some "", cssClasses := ["jr-connection"],
             overlays := ["delete-b"], label := "" }] 0))] :=
  claim_C3_pair_reuse_ignores_tag ["A:out", "B:in"] []
    { store := [{ oid := 0, alive := true, tag := some "b", src := "A:out",
                  tgt := "B:in", handlers := true, detachable := true,
                  classParam := some "", cssClasses := ["jr-connection"],
                  overlays := ["delete-b"], label := "" }]
      connMap := [("b", 0)], existing := [("b", 0)]
      byUuid := [("A:out|B:in", 0)], nextOid := 1, trace := [] }
    { id := "a", source := ⟨"A", some "out"⟩, target := ⟨"B", some "in"⟩,
      label := none, className := none, editable := none }
    0 rfl rfl rfl rfl

end JsPlumbWrapper
